import Mathlib

/-!
Verification development for the storage-api-documents service.

The embedding models the slice of the repository the specification covers:
the document routes in `app/routes/documents.py` (create, list, get,
download, delete), the blob-store helpers in `app/document_handler.py`,
and the metadata table of `app/models.py`.  The filesystem is an explicit
association list from paths to byte contents plus a list of directories;
the metadata store is a list of rows; SQLAlchemy queries become list
operations; exceptions become explicit error results; environment faults
(a failing blob write, a failing commit) are injected as boolean flags.
-/

set_option autoImplicit false

namespace StorageApi

/-- A row of the `documents` table (`app/models.py`): id, name,
original filename, local path and status (timestamps are omitted: no
claim mentions them). -/
structure DocRow where
  id : String
  name : String
  original_filename : String
  local_path : String
  status : String
  deriving Repr, DecidableEq

/-- The on-disk state: files as an association list from path to byte
content, and the set of directories present. -/
structure FS where
  files : List (String × List Nat)
  dirs : List String
  deriving Repr, DecidableEq

/-- Full system state: filesystem plus the metadata table. -/
structure SysState where
  fs : FS
  db : List DocRow
  deriving Repr, DecidableEq

/-- An HTTP error as raised by `HTTPException(status_code, detail)`. -/
structure HErr where
  code : Nat
  detail : String
  deriving Repr, DecidableEq

/- ## Path helpers

`pathlib.Path` and `os.path` operations are embedded as character-list
functions on the path string. -/

/-- Split a character list on the separator character, keeping empty
components, as `"a/b".split` would. -/
def splitSlash : List Char → List (List Char)
  | [] => [[]]
  | c :: rest =>
    let r := splitSlash rest
    if c = '/' then [] :: r
    else
      match r with
      | [] => [[c]]
      | h :: t => (c :: h) :: t

/-- Join components with the separator character. -/
def joinSlash : List (List Char) → List Char
  | [] => []
  | [x] => x
  | x :: xs => x ++ '/' :: joinSlash xs

/-- Embeds `pathlib.Path(p).parent` for the multi-component paths the service
builds: everything before the final path component. -/
def parentDir (p : String) : String :=
  String.mk (joinSlash ((splitSlash p.data).dropLast))

/-- Embeds `pathlib.Path(p).name`: the final component, skipping empty and
`.` components as pathlib normalisation does. -/
def pathName (p : String) : String :=
  match ((splitSlash p.data).filter (fun c => !c.isEmpty && c ≠ ['.'])).getLast? with
  | some n => String.mk n
  | none => ""

/-- Split a character list at its last dot: `dotSplit cs = some (b, a)`
when `cs = b ++ '.' :: a` and `a` is dot-free; `none` when `cs` has no
dot. -/
def dotSplit : List Char → Option (List Char × List Char)
  | [] => none
  | c :: rest =>
    match dotSplit rest with
    | some (b, a) => some (c :: b, a)
    | none => if c = '.' then some ([], rest) else none

/-- The pathlib suffix of a file name: the substring from the last dot,
provided that dot is neither the first nor the last character of the
name; empty otherwise. -/
def pySuffix (name : List Char) : List Char :=
  match dotSplit name with
  | none => []
  | some (b, a) => if b ≠ [] ∧ a ≠ [] then '.' :: a else []

/-- Embeds `pathlib.Path(filename).suffix`. -/
def pathSuffix (filename : String) : String :=
  String.mk (pySuffix (pathName filename).data)

/-- Embeds `os.path.splitext(p)[1]` (posix): the substring from the last dot
when that dot lies after the last slash and some character between the
last slash and that dot is not itself a dot; empty otherwise. -/
def splitextExt (p : String) : String :=
  match (splitSlash p.data).getLast? with
  | none => ""
  | some lastComp =>
    match dotSplit lastComp with
    | none => ""
    | some (b, a) => if b.any (fun c => c ≠ '.') then String.mk ('.' :: a) else ""

/-- Python `s[:2]`: the first two characters. -/
def take2 (s : String) : String := String.mk (s.data.take 2)

/-- Python `s.startswith('.')`: the first character is a dot. -/
def startsWithDot (s : String) : Bool := s.data.head? == some '.'

/- ## Blob store (filesystem primitives) -/

/-- Embeds `Path(p).exists()` for a file path. -/
def fileExists (p : String) (fs : FS) : Bool :=
  (fs.files.find? (fun e => e.1 == p)).isSome

/-- Read the bytes stored at a path, if any. -/
def readFile (p : String) (fs : FS) : Option (List Nat) :=
  (fs.files.find? (fun e => e.1 == p)).map (fun e => e.2)

/-- Embeds `open(p, "wb")` followed by a full write: replaces any previous
content at the path. -/
def writeFile (p : String) (content : List Nat) (fs : FS) : FS :=
  { fs with files := (p, content) :: fs.files.filter (fun e => e.1 != p) }

/-- Embeds `Path(p).unlink()`. -/
def unlinkFile (p : String) (fs : FS) : FS :=
  { fs with files := fs.files.filter (fun e => e.1 != p) }

/-- Embeds `d.mkdir(exist_ok=True)`. -/
def mkdirP (d : String) (fs : FS) : FS :=
  if d ∈ fs.dirs then fs else { fs with dirs := d :: fs.dirs }

/-- Embeds `Path(d).rmdir()`. -/
def rmdir (d : String) (fs : FS) : FS :=
  { fs with dirs := fs.dirs.filter (fun x => x != d) }

/-- Embeds `any(Path(d).iterdir())`: the directory has at least one entry
(a file or a directory whose parent is `d`). -/
def dirNonEmpty (d : String) (fs : FS) : Bool :=
  fs.files.any (fun e => parentDir e.1 == d) || fs.dirs.any (fun x => parentDir x == d)

/-- Blob removal as implemented identically in
`DocumentHandler.delete_document` (`app/document_handler.py` lines
53-66, inside its `try`) and inline in the delete route
(`app/routes/documents.py` lines 266-272): unlink the file if it
exists, then remove its parent directory when that directory has become
empty; a no-op when the file is absent. -/
def remove_blob (lp : String) (fs : FS) : FS :=
  if fileExists lp fs then
    let fs1 := unlinkFile lp fs
    if dirNonEmpty (parentDir lp) fs1 then fs1 else rmdir (parentDir lp) fs1
  else fs

/- ## Metadata store -/

/-- Embeds `db.query(Document).filter(Document.id == id).first()`. -/
def dbGet (id : String) (db : List DocRow) : Option DocRow :=
  db.find? (fun r => r.id == id)

/-- Embeds `db.delete(document)` plus `db.commit()` for the row keyed by the
primary key `id`. -/
def dbDelete (id : String) (db : List DocRow) : List DocRow :=
  db.filter (fun r => r.id != id)

/-- Python truthiness of the optional `status` query parameter:
`None` and the empty string are falsy. -/
def pyTruthy : Option String → Bool
  | none => false
  | some s => s != ""

/- ## Path allocation (create route, lines 77-86) -/

/-- Embeds `ext = Path(original_filename).suffix or ".txt"`. -/
def alloc_ext (filename : String) : String :=
  if pathSuffix filename = "" then ".txt" else pathSuffix filename

/-- The allocated storage path
`REPOSITORY_PATH / doc_id[:2] / f"{doc_id}{ext}"`. -/
def alloc_path (base id filename : String) : String :=
  base ++ "/" ++ take2 id ++ "/" ++ id ++ alloc_ext filename

/-- The extension computed in `DocumentHandler.download_and_save`
(`app/document_handler.py` lines 25-27):
`ext = os.path.splitext(url)[1] or '.txt'`, then a dot is prepended
when missing. -/
def handler_ext (url : String) : String :=
  let e := if splitextExt url = "" then ".txt" else splitextExt url
  if startsWithDot e then e else "." ++ e

/-- The storage path allocated by `DocumentHandler.download_and_save`
(lines 19-29): `base / doc_id[:2] / f"{doc_id}{ext}"`. -/
def handler_alloc_path (base id url : String) : String :=
  base ++ "/" ++ take2 id ++ "/" ++ id ++ handler_ext url

/- ## Routes -/

/-- Result of the create route: `201` with the created row, or `500`
after compensating cleanup. -/
inductive CreateResult where
  | created (doc : DocRow) (s : SysState)
  | serverError (s : SysState)
  deriving Repr, DecidableEq

/-- Embeds `create_document` (`app/routes/documents.py` lines 75-114).
`writeFails` injects a fault in the blob write (step 3), `commitFails`
in the metadata commit (step 4); the `except` branch deletes the blob
at `local_path` when it exists before re-raising as a 500. -/
def create_document (base id name filename : String) (content : List Nat)
    (writeFails commitFails : Bool) (s : SysState) : CreateResult :=
  let subDir := base ++ "/" ++ take2 id
  let fs1 := mkdirP subDir s.fs
  let lp := alloc_path base id filename
  let fs2 := writeFile lp content fs1
  if writeFails then
    .serverError { s with fs := if fileExists lp fs2 then unlinkFile lp fs2 else fs2 }
  else if commitFails then
    .serverError { s with fs := if fileExists lp fs2 then unlinkFile lp fs2 else fs2 }
  else
    .created ⟨id, name, filename, lp, "pending"⟩ { fs := fs2, db := s.db ++ [⟨id, name, filename, lp, "pending"⟩] }

/-- Embeds `read_documents` (`app/routes/documents.py` lines 123-148):
optional status filter via Python truthiness, then
`offset(skip).limit(limit)`. -/
def read_documents (status_f : Option String) (skip limit : Nat) (db : List DocRow) : List DocRow :=
  let q := if pyTruthy status_f then db.filter (fun r => r.status == status_f.getD "") else db
  (q.drop skip).take limit

/-- Embeds `read_document` (`app/routes/documents.py` lines 157-181). -/
def read_document (id : String) (s : SysState) : Except HErr DocRow :=
  match dbGet id s.db with
  | none => .error ⟨404, "Documento no encontrado"⟩
  | some d => .ok d

/-- Embeds `download_document` (`app/routes/documents.py` lines 195-231):
row lookup, then on-disk existence check, then the file bytes paired
with the stored `original_filename`. -/
def download_document (id : String) (s : SysState) : Except HErr (List Nat × String) :=
  match dbGet id s.db with
  | none => .error ⟨404, "Documento no encontrado"⟩
  | some doc =>
    match readFile doc.local_path s.fs with
    | none => .error ⟨404, "Archivo no encontrado en el sistema"⟩
    | some bytes => .ok (bytes, doc.original_filename)

/-- Result of the delete route. -/
inductive DeleteResult where
  | notFound
  | serverError (s : SysState)
  | deleted (name : String) (s : SysState)
  deriving Repr, DecidableEq

/-- Embeds `delete_document` (`app/routes/documents.py` lines 239-288):
row lookup (404 when absent), blob removal, then row deletion.
`blobFails` injects a fault in the blob-removal step (state left as it
was), `commitFails` one in the row-deletion commit (blob already
removed, row kept by the rollback); both surface a 500. -/
def delete_document (id : String) (blobFails commitFails : Bool) (s : SysState) : DeleteResult :=
  match dbGet id s.db with
  | none => .notFound
  | some doc =>
    if blobFails then .serverError s
    else
      let fs1 := remove_blob doc.local_path s.fs
      if commitFails then .serverError { s with fs := fs1 }
      else .deleted doc.name { fs := fs1, db := dbDelete id s.db }

/- ## Step decomposition of create (for the ordering claim) -/

/-- The inputs of one create call. -/
structure CreateCtx where
  base : String
  id : String
  name : String
  filename : String
  content : List Nat
  deriving Repr

/-- The state-mutating steps of `create_document`, in program order:
make the shard directory, write the blob, commit the metadata row. -/
inductive CreateStep where
  | mkSubDir
  | writeBlob
  | insertRow
  deriving Repr, DecidableEq

/-- The steps of `create_document` in the order the code performs
them (lines 80-102). -/
def create_steps : List CreateStep := [.mkSubDir, .writeBlob, .insertRow]

/-- Effect of a single create step on the system state. -/
def run_create_step (c : CreateCtx) (s : SysState) : CreateStep → SysState
  | .mkSubDir => { s with fs := mkdirP (c.base ++ "/" ++ take2 c.id) s.fs }
  | .writeBlob => { s with fs := writeFile (alloc_path c.base c.id c.filename) c.content s.fs }
  | .insertRow =>
    { s with db := s.db ++ [⟨c.id, c.name, c.filename, alloc_path c.base c.id c.filename, "pending"⟩] }

/-- Run a prefix of the create steps. -/
def run_create_steps (c : CreateCtx) (steps : List CreateStep) (s : SysState) : SysState :=
  steps.foldl (run_create_step c) s

/- ## Helper lemmas -/

/-- Filtering out a key leaves nothing for `find?` on that key. -/
theorem find?_key_filter_ne {α : Type} (key : α → String) (p : String) (l : List α) :
    (l.filter (fun e => key e != p)).find? (fun e => key e == p) = none := by
  rw [List.find?_eq_none]
  intro x hx
  have hmem := List.of_mem_filter hx
  simp only [bne_iff_ne, ne_eq] at hmem
  simp [hmem]

/-- A file just written reads back as the written content. -/
theorem readFile_writeFile (p : String) (c : List Nat) (fs : FS) :
    readFile p (writeFile p c fs) = some c := by
  simp [readFile, writeFile, List.find?]

/-- A file just written exists. -/
theorem fileExists_writeFile (p : String) (c : List Nat) (fs : FS) :
    fileExists p (writeFile p c fs) = true := by
  simp [fileExists, writeFile, List.find?]

/-- An unlinked file no longer exists. -/
theorem fileExists_unlinkFile (p : String) (fs : FS) :
    fileExists p (unlinkFile p fs) = false := by
  simp only [fileExists, unlinkFile]
  rw [find?_key_filter_ne (fun e => e.1) p fs.files]
  rfl

/-- Unlinking one path leaves every other path unchanged. -/
theorem readFile_unlinkFile_ne (p q : String) (fs : FS) (h : q ≠ p) :
    readFile q (unlinkFile p fs) = readFile q fs := by
  simp only [readFile, unlinkFile]
  congr 1
  induction fs.files with
  | nil => rfl
  | cons x xs ih =>
    by_cases hx : x.1 = q
    · subst hx
      have hb : (x.1 != p) = true := by simp [h]
      simp [List.filter_cons, hb, List.find?]
    · have hq : (x.1 == q) = false := by simp [hx]
      by_cases hp : x.1 = p
      · have hb : (x.1 != p) = false := by simp [hp]
        simp [List.filter_cons, hb, List.find?, hq, ih]
      · have hb : (x.1 != p) = true := by simp [hp]
        simp [List.filter_cons, hb, List.find?, hq, ih]

/-- A deleted row is gone from the table. -/
theorem dbGet_dbDelete (id : String) (db : List DocRow) :
    dbGet id (dbDelete id db) = none := by
  simp only [dbGet, dbDelete]
  exact find?_key_filter_ne (fun r => r.id) id db

/-- Appending a row with a fresh id makes it the lookup result. -/
theorem dbGet_append_self (id : String) (db : List DocRow) (row : DocRow)
    (hfresh : dbGet id db = none) (hid : row.id = id) :
    dbGet id (db ++ [row]) = some row := by
  unfold dbGet at hfresh ⊢
  rw [List.find?_append, hfresh]
  simp [hid]

/-- The mkdirP operation guarantees the directory is present. -/
theorem mem_mkdirP (d : String) (fs : FS) : d ∈ (mkdirP d fs).dirs := by
  unfold mkdirP
  by_cases h : d ∈ fs.dirs <;> simp [h]

/-- The pathlib suffix is empty or starts with a dot. -/
theorem pySuffix_eq_nil_or_dot (cs : List Char) :
    pySuffix cs = [] ∨ ∃ a, pySuffix cs = '.' :: a := by
  unfold pySuffix
  cases h : dotSplit cs with
  | none => exact Or.inl rfl
  | some ba =>
    by_cases hb : ba.1 ≠ [] ∧ ba.2 ≠ []
    · exact Or.inr ⟨ba.2, by simp [hb]⟩
    · exact Or.inl (by simp [hb])

/-- The extension alloc always begins with a dot. -/
theorem alloc_ext_head (filename : String) :
    (alloc_ext filename).data.head? = some '.' := by
  unfold alloc_ext
  by_cases h : pathSuffix filename = ""
  · simp [h]
  · rw [if_neg h]
    rcases pySuffix_eq_nil_or_dot (pathName filename).data with h0 | ⟨a, ha⟩
    · refine absurd ?_ h
      unfold pathSuffix
      rw [h0]
    · unfold pathSuffix
      rw [ha]
      rfl

/-- The handler extension always begins with a dot. -/
theorem handler_ext_head (url : String) :
    (handler_ext url).data.head? = some '.' := by
  unfold handler_ext
  by_cases h : startsWithDot (if splitextExt url = "" then ".txt" else splitextExt url) = true
  · simp only [h, if_true]
    simpa [startsWithDot] using h
  · simp only [h, if_false, Bool.not_eq_true] at h ⊢
    simp [h]

/- ## Claim theorems -/

/-- Claim C10: a `List` call whose status filter is the empty string is
treated exactly as if no filter were supplied (Python truthiness of the
query parameter), returning documents of every status subject to skip
and limit, not the empty page a literal column match would give. -/
theorem list_empty_status_filter (skip limit : Nat) (db : List DocRow) :
    read_documents (some "") skip limit db = read_documents none skip limit db := by
  rfl

/-- Claim C9: a `List` call whose status filter matches no stored
document's status (in particular any value outside
pending/processed/error on a store that only holds such rows) returns
the empty page, with no validation error: `read_documents` is total and
just filters. -/
theorem list_unknown_status_empty (st : String) (skip limit : Nat) (db : List DocRow)
    (hne : st ≠ "") (h : ∀ r ∈ db, r.status ≠ st) :
    read_documents (some st) skip limit db = [] := by
  have ht : pyTruthy (some st) = true := by simp [pyTruthy, hne]
  have hf : db.filter (fun r => r.status == st) = [] := by
    rw [List.filter_eq_nil_iff]
    intro r hr
    simp [h r hr]
  simp [read_documents, ht, hf]

/-- Witness for C9 on a concrete store holding one pending row,
filtered by the unmatched status `error`. -/
theorem list_unknown_status_empty_witness :
    read_documents (some "error") 0 100 [⟨"i1", "n", "f.txt", "/r/i1/x.txt", "pending"⟩] = [] :=
  list_unknown_status_empty "error" 0 100 [⟨"i1", "n", "f.txt", "/r/i1/x.txt", "pending"⟩]
    (by decide) (by decide)

/-- Claim C2: `Download(id)` returns the row-not-found error when no row
exists, a distinct blob-missing error when the row exists but its
`local_path` has no file on disk, and otherwise the file bytes paired
with the stored `original_filename`; the two error conditions are
distinguishable (different exception payloads), never conflated. -/
theorem download_error_taxonomy (id : String) (s : SysState) :
    (dbGet id s.db = none →
      download_document id s = .error ⟨404, "Documento no encontrado"⟩) ∧
    (∀ doc, dbGet id s.db = some doc → readFile doc.local_path s.fs = none →
      download_document id s = .error ⟨404, "Archivo no encontrado en el sistema"⟩) ∧
    (∀ doc bytes, dbGet id s.db = some doc → readFile doc.local_path s.fs = some bytes →
      download_document id s = .ok (bytes, doc.original_filename)) ∧
    (HErr.mk 404 "Documento no encontrado" ≠ HErr.mk 404 "Archivo no encontrado en el sistema") := by
  refine ⟨fun h => ?_, fun doc h hf => ?_, fun doc bytes h hf => ?_, by decide⟩
  · simp [download_document, h]
  · simp [download_document, h, hf]
  · simp [download_document, h, hf]

/-- Witness for C2: on an empty store, download reports the
row-not-found error. -/
theorem download_error_taxonomy_witness :
    download_document "i1" ⟨⟨[], []⟩, []⟩ = .error ⟨404, "Documento no encontrado"⟩ :=
  (download_error_taxonomy "i1" ⟨⟨[], []⟩, []⟩).1 (by decide)

/-- Claim C6: for an id with no row, `Get`, `Download` and `Delete` all
report the not-found condition; and after a successful `Delete(id)` the
row is gone, so a second `Delete(id)` (with any fault injection)
returns not-found rather than crashing or reporting a
duplicate-deletion fault. -/
theorem missing_id_notfound (id : String) (s s2 : SysState) (doc : DocRow)
    (bf cf bf2 cf2 : Bool)
    (h : dbGet id s.db = none) (h2 : dbGet id s2.db = some doc) :
    read_document id s = .error ⟨404, "Documento no encontrado"⟩ ∧
    download_document id s = .error ⟨404, "Documento no encontrado"⟩ ∧
    delete_document id bf cf s = .notFound ∧
    delete_document id false false s2 =
      .deleted doc.name ⟨remove_blob doc.local_path s2.fs, dbDelete id s2.db⟩ ∧
    dbGet id (dbDelete id s2.db) = none ∧
    delete_document id bf2 cf2 ⟨remove_blob doc.local_path s2.fs, dbDelete id s2.db⟩ = .notFound := by
  refine ⟨?_, ?_, ?_, ?_, dbGet_dbDelete id s2.db, ?_⟩
  · simp [read_document, h]
  · simp [download_document, h]
  · simp [delete_document, h]
  · simp [delete_document, h2]
  · simp [delete_document, dbGet_dbDelete]

/-- Witness for C6: on the empty store every operation on `i1` is
not-found, and on a one-row store deleting `i1` twice ends in
not-found. -/
theorem missing_id_notfound_witness :
    read_document "i1" ⟨⟨[], []⟩, []⟩ = .error ⟨404, "Documento no encontrado"⟩ ∧
    download_document "i1" ⟨⟨[], []⟩, []⟩ = .error ⟨404, "Documento no encontrado"⟩ ∧
    delete_document "i1" false false ⟨⟨[], []⟩, []⟩ = .notFound ∧
    delete_document "i1" false false
        ⟨⟨[("/r/i1/x.txt", [7])], ["/r", "/r/i1"]⟩, [⟨"i1", "n", "f.txt", "/r/i1/x.txt", "pending"⟩]⟩ =
      .deleted "n"
        ⟨remove_blob "/r/i1/x.txt" ⟨[("/r/i1/x.txt", [7])], ["/r", "/r/i1"]⟩,
         dbDelete "i1" [⟨"i1", "n", "f.txt", "/r/i1/x.txt", "pending"⟩]⟩ ∧
    dbGet "i1" (dbDelete "i1" [⟨"i1", "n", "f.txt", "/r/i1/x.txt", "pending"⟩]) = none ∧
    delete_document "i1" false false
        ⟨remove_blob "/r/i1/x.txt" ⟨[("/r/i1/x.txt", [7])], ["/r", "/r/i1"]⟩,
         dbDelete "i1" [⟨"i1", "n", "f.txt", "/r/i1/x.txt", "pending"⟩]⟩ = .notFound :=
  missing_id_notfound "i1"
    ⟨⟨[], []⟩, []⟩
    ⟨⟨[("/r/i1/x.txt", [7])], ["/r", "/r/i1"]⟩, [⟨"i1", "n", "f.txt", "/r/i1/x.txt", "pending"⟩]⟩
    ⟨"i1", "n", "f.txt", "/r/i1/x.txt", "pending"⟩
    false false false false (by decide) (by decide)

/-- Claim C4: every `Create` call allocates the storage path
`<base>/<first-2-chars-of-id>/<id><ext>`, where the extension comes
from the filename hint (`Path(filename).suffix`, or for the URL-based
handler `os.path.splitext(url)[1]`), defaults to `.txt` when the hint
has none, and always begins with a dot; the two-character shard
subdirectory is created if absent. -/
theorem create_path_allocation (base id name filename : String) (content : List Nat)
    (s : SysState) :
    (∃ s2,
      create_document base id name filename content false false s =
        .created ⟨id, name, filename, alloc_path base id filename, "pending"⟩ s2 ∧
      (base ++ "/" ++ take2 id) ∈ s2.fs.dirs) ∧
    alloc_path base id filename = base ++ "/" ++ take2 id ++ "/" ++ id ++ alloc_ext filename ∧
    take2 id = String.mk (id.data.take 2) ∧
    (alloc_ext filename).data.head? = some '.' ∧
    (pathSuffix filename = "" → alloc_ext filename = ".txt") ∧
    (pathSuffix filename ≠ "" → alloc_ext filename = pathSuffix filename) ∧
    handler_alloc_path base id filename =
      base ++ "/" ++ take2 id ++ "/" ++ id ++ handler_ext filename ∧
    (handler_ext filename).data.head? = some '.' ∧
    (splitextExt filename = "" → handler_ext filename = ".txt") := by
  refine ⟨⟨_, rfl, ?_⟩, rfl, rfl, alloc_ext_head filename, fun h => ?_, fun h => ?_,
    rfl, handler_ext_head filename, fun h => ?_⟩
  · exact mem_mkdirP (base ++ "/" ++ take2 id) s.fs
  · simp [alloc_ext, h]
  · simp [alloc_ext, h]
  · simp [handler_ext, h, startsWithDot]

/-- Witness for C4 at the concrete inputs of the spec scenario: a file
named `a.txt` and an extensionless hint. -/
theorem create_path_allocation_witness :
    alloc_path "/repo" "ab12" "a.txt" = "/repo/ab/ab12.txt" ∧
    alloc_ext "noext" = ".txt" ∧
    handler_ext "noext" = ".txt" := by
  refine ⟨?_, ?_, ?_⟩
  · have h := (create_path_allocation "/repo" "ab12" "n" "a.txt" [104] ⟨⟨[], []⟩, []⟩).2.1
    rw [h]
    decide
  · exact (create_path_allocation "/r" "ab12" "n" "noext" [] ⟨⟨[], []⟩, []⟩).2.2.2.2.1 (by decide)
  · exact
      (create_path_allocation "/r" "ab12" "n" "noext" [] ⟨⟨[], []⟩, []⟩).2.2.2.2.2.2.2.2 (by decide)

/-- Claim C1: when the blob write (step 3) or the metadata commit
(step 4) of `Create` fails, the handler deletes the blob already
written at the allocated path before surfacing the 500, so afterwards
no row exists for the attempt's id and no blob remains at the
allocated path; and a fault-free `Create` leaves both the row and the
blob present: create fully succeeds or fully fails. -/
theorem create_failure_cleanup (base id name filename : String) (content : List Nat)
    (wf cf : Bool) (s : SysState) (hfresh : dbGet id s.db = none) :
    (wf = true ∨ cf = true →
      ∃ s2, create_document base id name filename content wf cf s = .serverError s2 ∧
        dbGet id s2.db = none ∧
        fileExists (alloc_path base id filename) s2.fs = false) ∧
    (∃ doc s2, create_document base id name filename content false false s = .created doc s2 ∧
      dbGet id s2.db = some doc ∧
      fileExists (alloc_path base id filename) s2.fs = true) := by
  constructor
  · intro hfail
    have hclean :
        fileExists (alloc_path base id filename)
          (if fileExists (alloc_path base id filename)
                (writeFile (alloc_path base id filename) content
                  (mkdirP (base ++ "/" ++ take2 id) s.fs)) = true then
            unlinkFile (alloc_path base id filename)
              (writeFile (alloc_path base id filename) content
                (mkdirP (base ++ "/" ++ take2 id) s.fs))
          else
            writeFile (alloc_path base id filename) content
              (mkdirP (base ++ "/" ++ take2 id) s.fs)) = false := by
      rw [if_pos (fileExists_writeFile _ _ _)]
      exact fileExists_unlinkFile _ _
    cases wf with
    | true =>
      exact ⟨_, rfl, hfresh, hclean⟩
    | false =>
      cases cf with
      | true => exact ⟨_, rfl, hfresh, hclean⟩
      | false => simp at hfail
  · refine ⟨_, _, rfl, ?_, fileExists_writeFile _ _ _⟩
    exact dbGet_append_self id s.db _ hfresh rfl

/-- Witness for C1: a create of `[7]` under id `ab12` whose commit
fails leaves no row and no blob; the fault-free create leaves both. -/
theorem create_failure_cleanup_witness :
    (∃ s2, create_document "/r" "ab12" "n" "a.txt" [7] false true ⟨⟨[], []⟩, []⟩ =
        .serverError s2 ∧
      dbGet "ab12" s2.db = none ∧
      fileExists (alloc_path "/r" "ab12" "a.txt") s2.fs = false) ∧
    (∃ doc s2, create_document "/r" "ab12" "n" "a.txt" [7] false false ⟨⟨[], []⟩, []⟩ =
        .created doc s2 ∧
      dbGet "ab12" s2.db = some doc ∧
      fileExists (alloc_path "/r" "ab12" "a.txt") s2.fs = true) :=
  ⟨(create_failure_cleanup "/r" "ab12" "n" "a.txt" [7] false true ⟨⟨[], []⟩, []⟩
      (by decide)).1 (Or.inr rfl),
   (create_failure_cleanup "/r" "ab12" "n" "a.txt" [7] false true ⟨⟨[], []⟩, []⟩
      (by decide)).2⟩

/-- Claim C5: after a fault-free `Create(content, name, filename)` with
a fresh id, `Get(id)` succeeds with the created row and `Download(id)`
returns the uploaded bytes unchanged, paired with exactly the
`original_filename` supplied at upload, independent of the extension
used in the derived storage path. -/
theorem create_roundtrip (base id name filename : String) (content : List Nat)
    (s : SysState) (hfresh : dbGet id s.db = none) :
    ∃ doc s2,
      create_document base id name filename content false false s = .created doc s2 ∧
      doc.original_filename = filename ∧
      read_document id s2 = .ok doc ∧
      download_document id s2 = .ok (content, filename) := by
  refine ⟨_, _, rfl, rfl, ?_, ?_⟩
  · simp [read_document,
      dbGet_append_self id s.db
        ⟨id, name, filename, alloc_path base id filename, "pending"⟩ hfresh rfl]
  · simp [download_document,
      dbGet_append_self id s.db
        ⟨id, name, filename, alloc_path base id filename, "pending"⟩ hfresh rfl,
      readFile_writeFile]

/-- Witness for C5: uploading `report.pdf` with bytes `[1, 2, 3]` then
reading and downloading it back. -/
theorem create_roundtrip_witness :
    ∃ doc s2,
      create_document "/r" "ab12" "Informe" "report.pdf" [1, 2, 3] false false ⟨⟨[], []⟩, []⟩ =
        .created doc s2 ∧
      doc.original_filename = "report.pdf" ∧
      read_document "ab12" s2 = .ok doc ∧
      download_document "ab12" s2 = .ok ([1, 2, 3], "report.pdf") :=
  create_roundtrip "/r" "ab12" "Informe" "report.pdf" [1, 2, 3] ⟨⟨[], []⟩, []⟩ (by decide)

/-- Claim C3: on an existing document, `Delete` attempts blob removal
before row deletion: a fault in the blob-removal step surfaces a 500
with the row still present (dangling row), while a fault in the row
deletion after blob removal succeeded surfaces a 500 whose state keeps
the blob removed — no attempt is made to restore it; the fault-free run
removes the blob then the row. -/
theorem delete_blob_before_row (id : String) (s : SysState) (doc : DocRow) (cf : Bool)
    (h : dbGet id s.db = some doc) :
    (delete_document id true cf s = .serverError s ∧
      dbGet id s.db = some doc) ∧
    (delete_document id false true s =
        .serverError ⟨remove_blob doc.local_path s.fs, s.db⟩ ∧
      fileExists doc.local_path (remove_blob doc.local_path s.fs) = false ∧
      dbGet id s.db = some doc) ∧
    delete_document id false false s =
      .deleted doc.name ⟨remove_blob doc.local_path s.fs, dbDelete id s.db⟩ := by
  refine ⟨⟨?_, h⟩, ⟨?_, ?_, h⟩, ?_⟩
  · simp [delete_document, h]
  · simp [delete_document, h]
  · unfold remove_blob
    by_cases he : fileExists doc.local_path s.fs = true
    · rw [if_pos he]
      by_cases hd :
          dirNonEmpty (parentDir doc.local_path) (unlinkFile doc.local_path s.fs) = true
      · rw [if_pos hd]
        exact fileExists_unlinkFile _ _
      · rw [if_neg hd]
        exact fileExists_unlinkFile _ _
    · rw [if_neg he]
      simpa using he
  · simp [delete_document, h]

/-- Witness for C3 on a one-row store: the blob-fault run keeps the
row, the commit-fault run has already removed the blob, and the
fault-free run removes both. -/
theorem delete_blob_before_row_witness :
    (delete_document "i1" true false
        ⟨⟨[("/r/i1/x.txt", [7])], ["/r", "/r/i1"]⟩, [⟨"i1", "n", "f.txt", "/r/i1/x.txt", "pending"⟩]⟩ =
      .serverError
        ⟨⟨[("/r/i1/x.txt", [7])], ["/r", "/r/i1"]⟩, [⟨"i1", "n", "f.txt", "/r/i1/x.txt", "pending"⟩]⟩ ∧
      dbGet "i1" [⟨"i1", "n", "f.txt", "/r/i1/x.txt", "pending"⟩] =
        some ⟨"i1", "n", "f.txt", "/r/i1/x.txt", "pending"⟩) ∧
    (delete_document "i1" false true
        ⟨⟨[("/r/i1/x.txt", [7])], ["/r", "/r/i1"]⟩, [⟨"i1", "n", "f.txt", "/r/i1/x.txt", "pending"⟩]⟩ =
      .serverError
        ⟨remove_blob "/r/i1/x.txt" ⟨[("/r/i1/x.txt", [7])], ["/r", "/r/i1"]⟩,
         [⟨"i1", "n", "f.txt", "/r/i1/x.txt", "pending"⟩]⟩ ∧
      fileExists "/r/i1/x.txt" (remove_blob "/r/i1/x.txt" ⟨[("/r/i1/x.txt", [7])], ["/r", "/r/i1"]⟩) =
        false ∧
      dbGet "i1" [⟨"i1", "n", "f.txt", "/r/i1/x.txt", "pending"⟩] =
        some ⟨"i1", "n", "f.txt", "/r/i1/x.txt", "pending"⟩) ∧
    delete_document "i1" false false
        ⟨⟨[("/r/i1/x.txt", [7])], ["/r", "/r/i1"]⟩, [⟨"i1", "n", "f.txt", "/r/i1/x.txt", "pending"⟩]⟩ =
      .deleted "n"
        ⟨remove_blob "/r/i1/x.txt" ⟨[("/r/i1/x.txt", [7])], ["/r", "/r/i1"]⟩,
         dbDelete "i1" [⟨"i1", "n", "f.txt", "/r/i1/x.txt", "pending"⟩]⟩ :=
  delete_blob_before_row "i1"
    ⟨⟨[("/r/i1/x.txt", [7])], ["/r", "/r/i1"]⟩, [⟨"i1", "n", "f.txt", "/r/i1/x.txt", "pending"⟩]⟩
    ⟨"i1", "n", "f.txt", "/r/i1/x.txt", "pending"⟩ false (by decide)

/-- Claim C7: blob deletion removes the file when present and is a
no-op (not an error) when it is absent; it removes the parent
directory exactly when unlinking left it without entries; it touches no
other file and no directory other than the parent — in particular it
never recurses above that single level. -/
theorem remove_blob_spec (lp : String) (fs : FS) :
    fileExists lp (remove_blob lp fs) = false ∧
    (fileExists lp fs = false → remove_blob lp fs = fs) ∧
    (∀ q, q ≠ lp → readFile q (remove_blob lp fs) = readFile q fs) ∧
    (fileExists lp fs = true →
      dirNonEmpty (parentDir lp) (unlinkFile lp fs) = false →
      parentDir lp ∉ (remove_blob lp fs).dirs) ∧
    (∀ d, d ≠ parentDir lp → (d ∈ (remove_blob lp fs).dirs ↔ d ∈ fs.dirs)) := by
  refine ⟨?_, ?_, ?_, ?_, ?_⟩
  · unfold remove_blob
    by_cases he : fileExists lp fs = true
    · rw [if_pos he]
      by_cases hd : dirNonEmpty (parentDir lp) (unlinkFile lp fs) = true
      · rw [if_pos hd]
        exact fileExists_unlinkFile _ _
      · rw [if_neg hd]
        exact fileExists_unlinkFile _ _
    · rw [if_neg he]
      simpa using he
  · intro he
    unfold remove_blob
    rw [if_neg (by simp [he])]
  · intro q hq
    unfold remove_blob
    by_cases he : fileExists lp fs = true
    · rw [if_pos he]
      by_cases hd : dirNonEmpty (parentDir lp) (unlinkFile lp fs) = true
      · rw [if_pos hd]
        exact readFile_unlinkFile_ne lp q fs hq
      · rw [if_neg hd]
        exact readFile_unlinkFile_ne lp q fs hq
    · rw [if_neg he]
  · intro he hd
    unfold remove_blob
    rw [if_pos he, if_neg (by simp [hd])]
    simp [rmdir, unlinkFile, List.mem_filter]
  · intro d hd
    unfold remove_blob
    by_cases he : fileExists lp fs = true
    · rw [if_pos he]
      by_cases hne : dirNonEmpty (parentDir lp) (unlinkFile lp fs) = true
      · rw [if_pos hne]
        exact Iff.rfl
      · rw [if_neg hne]
        simp [rmdir, unlinkFile, List.mem_filter, hd]
    · rw [if_neg he]

/-- Witness for C7: deleting the last file of a shard also removes the
shard directory but leaves the base directory in place, and deleting an
absent path is a no-op. -/
theorem remove_blob_spec_witness :
    fileExists "/r/i1/x.txt" (remove_blob "/r/i1/x.txt" ⟨[("/r/i1/x.txt", [7])], ["/r", "/r/i1"]⟩) =
      false ∧
    remove_blob "/r/i1/y.txt" ⟨[], ["/r"]⟩ = ⟨[], ["/r"]⟩ ∧
    ("/r" ∈ (remove_blob "/r/i1/x.txt" ⟨[("/r/i1/x.txt", [7])], ["/r", "/r/i1"]⟩).dirs ↔
      "/r" ∈ (FS.mk [("/r/i1/x.txt", [7])] ["/r", "/r/i1"]).dirs) :=
  ⟨(remove_blob_spec "/r/i1/x.txt" ⟨[("/r/i1/x.txt", [7])], ["/r", "/r/i1"]⟩).1,
   (remove_blob_spec "/r/i1/y.txt" ⟨[], ["/r"]⟩).2.1 (by decide),
   (remove_blob_spec "/r/i1/x.txt" ⟨[("/r/i1/x.txt", [7])], ["/r", "/r/i1"]⟩).2.2.2.2 "/r"
     (by decide)⟩

/-- Claim C8: the metadata row insert is the final state-changing step
of `Create`: the shard mkdir and the blob write precede it, every
proper prefix of the step sequence leaves the metadata store unchanged,
and the fault-free `create_document` is exactly the full step
sequence. -/
theorem create_insert_row_last (c : CreateCtx) (s : SysState) (n : Nat)
    (hn : n < create_steps.length) :
    (run_create_steps c (create_steps.take n) s).db = s.db ∧
    create_steps.getLast? = some .insertRow ∧
    create_document c.base c.id c.name c.filename c.content false false s =
      .created ⟨c.id, c.name, c.filename, alloc_path c.base c.id c.filename, "pending"⟩
        (run_create_steps c create_steps s) := by
  refine ⟨?_, rfl, rfl⟩
  simp only [create_steps, List.length_cons, List.length_nil] at hn
  interval_cases n <;> rfl

/-- Witness for C8: the two-step prefix (mkdir, blob write) of a
concrete create leaves the store empty. -/
theorem create_insert_row_last_witness :
    (run_create_steps ⟨"/r", "ab12", "n", "a.txt", [7]⟩ (create_steps.take 2) ⟨⟨[], []⟩, []⟩).db =
      (SysState.mk ⟨[], []⟩ []).db ∧
    create_steps.getLast? = some .insertRow ∧
    create_document "/r" "ab12" "n" "a.txt" [7] false false ⟨⟨[], []⟩, []⟩ =
      .created ⟨"ab12", "n", "a.txt", alloc_path "/r" "ab12" "a.txt", "pending"⟩
        (run_create_steps ⟨"/r", "ab12", "n", "a.txt", [7]⟩ create_steps ⟨⟨[], []⟩, []⟩) :=
  create_insert_row_last ⟨"/r", "ab12", "n", "a.txt", [7]⟩ ⟨⟨[], []⟩, []⟩ 2 (by decide)

end StorageApi
